import Mathlib

/-!
Verification of the provid-server render-orchestration engine.

The definitions below are a shallow embedding of the TypeScript sources:

* `src/src/models/export.model.ts` — the `ExportRequest` schema (status enum).
* `src/src/controllers/export.controller.ts` — `exportVideo`, `handleWebhook`,
  `cancelExport`.
* `src/lambda/render-function/index.ts` — the queue consumer
  (`handleSQSEvent`, `processSQSRecord`), the Step Functions action handlers
  (`startRender`, `checkRenderStatus`), the task-token webhook resolver
  (`handleRemotionWebhook`), and the polling variant (`pollRenderStatus`).
* `src/infrastructure/setup.sh` — the Step Functions state-machine definition
  (`state-machine.json`).

Databases are modelled as lists of export-request records; HTTP responses as
status codes plus the effects the handler performed.  HMAC-SHA256 values are
not recomputed: the code only ever compares the received header against the
computed digest for string equality, so every model takes the computed digest
as an explicit `expectedSig` argument.
-/

namespace Provid

/-- Job status, from the `status` enum of `ExportRequestSchema` in
`src/src/models/export.model.ts` lines 32-38.  The enum admits exactly the
five values below; in particular there is no `canceled` value. -/
inductive Status where
  | pending
  | queued
  | processing
  | completed
  | failed
deriving DecidableEq, Repr

/-- The literal list of strings of the `status` enum in
`src/src/models/export.model.ts`. -/
def statusEnum : List String :=
  ["pending", "queued", "processing", "completed", "failed"]

/-- The status filter used both by the duplicate-submission check in
`exportVideo` and by the cancellability check in `cancelExport`:
`['pending', 'queued', 'processing']`. -/
def activeStatuses : List Status :=
  [Status.pending, Status.queued, Status.processing]

/-- A status is non-terminal when it is in the active list. -/
def Status.isActive (s : Status) : Bool :=
  activeStatuses.contains s

/-- A status is terminal when it is not in the active list
(`completed` or `failed`). -/
def Status.isTerminal (s : Status) : Bool :=
  !s.isActive

/-- One persisted `ExportRequest` document
(`src/src/models/export.model.ts`). -/
structure ExportReq where
  id : String
  projectId : String
  userId : String
  status : Status
  renderId : Option String
  bucketName : Option String
  outputUrl : Option String
  errorMessage : Option String
  progress : Option Nat
  executionArn : Option String
deriving DecidableEq, Repr

/-- Construct a fresh export request in a given status with every optional
field unset (as `new ExportRequest({projectId, userId, status: 'pending'})`
does). -/
def mkExportReq (id projectId userId : String) (status : Status) : ExportReq :=
  { id := id, projectId := projectId, userId := userId, status := status,
    renderId := none, bucketName := none, outputUrl := none,
    errorMessage := none, progress := none, executionArn := none }

/-- Mongo `findById` over the modelled collection. -/
def findById (db : List ExportReq) (id : String) : Option ExportReq :=
  db.find? (fun e => e.id == id)

/-- Mongo `findOne({_id, userId})` over the modelled collection. -/
def findByIdAndUser (db : List ExportReq) (id userId : String) : Option ExportReq :=
  db.find? (fun e => e.id == id && e.userId == userId)

/-- Saving a mutated document: replace the document with the same `_id`. -/
def saveById (db : List ExportReq) (id : String) (f : ExportReq → ExportReq) :
    List ExportReq :=
  db.map (fun e => if e.id == id then f e else e)

/-- The duplicate-submission predicate of `exportVideo`
(`ExportRequest.findOne({projectId, userId, status: {$in: ['pending',
'queued', 'processing']}})`, `src/src/controllers/export.controller.ts`
lines 47-51). -/
def isActiveDup (projectId userId : String) (e : ExportReq) : Bool :=
  e.projectId == projectId && e.userId == userId && e.status.isActive

/-- Result of one `exportVideo` request: the HTTP status code sent, the
collection afterwards, and whether a render request was enqueued (i.e. a new
workflow start was requested). -/
structure ExportVideoResult where
  httpStatus : Nat
  db : List ExportReq
  enqueued : Bool
deriving DecidableEq, Repr

/-- `ExportController.exportVideo`
(`src/src/controllers/export.controller.ts` lines 18-129).  `projectFound`
models the ownership lookup `Project.findOne({_id, userId})` succeeding,
`videoUrlOk` the `compositionSettings.videoUrl` string check; `newId` is the
`_id` Mongo mints for the new document. -/
def exportVideo (db : List ExportReq) (projectFound videoUrlOk : Bool)
    (projectId userId newId : String) : ExportVideoResult :=
  if !projectFound then
    { httpStatus := 404, db := db, enqueued := false }
  else if !videoUrlOk then
    { httpStatus := 400, db := db, enqueued := false }
  else
    match db.find? (isActiveDup projectId userId) with
    | some _ => { httpStatus := 409, db := db, enqueued := false }
    | none =>
        let fresh := mkExportReq newId projectId userId Status.pending
        { httpStatus := 200, db := db ++ [fresh], enqueued := true }

/-- Count of non-terminal export requests for one `(projectId, userId)`
resource key. -/
def activeCount (db : List ExportReq) (projectId userId : String) : Nat :=
  db.countP (isActiveDup projectId userId)

/-- The duplicate-submission invariant: at most one non-terminal export
request per resource key present in the collection. -/
def dupFree (db : List ExportReq) : Prop :=
  ∀ e ∈ db, activeCount db e.projectId e.userId ≤ 1

instance (db : List ExportReq) : Decidable (dupFree db) := by
  unfold dupFree; infer_instance

/-- Webhook event types handled by `ExportController.handleWebhook`. -/
inductive HookType where
  | render_started
  | render_success
  | render_error
  | render_timeout
  | other
deriving DecidableEq, Repr

/-- Body of a webhook call into `ExportController.handleWebhook`. -/
structure HookBody where
  type : HookType
  exportId : String
  renderId : Option String
  bucketName : Option String
  outputFile : Option String
  errMsgs : List String
deriving DecidableEq, Repr

/-- The per-document mutation performed by the `switch (type)` of
`ExportController.handleWebhook` (lines 322-379).  Note that no branch
inspects the current status of the document before overwriting it. -/
def applyHook (b : HookBody) (e : ExportReq) : ExportReq :=
  match b.type with
  | HookType.render_started =>
      { e with status := Status.processing, renderId := b.renderId,
               bucketName := b.bucketName }
  | HookType.render_success =>
      { e with status := Status.completed, outputUrl := b.outputFile,
               renderId := b.renderId, bucketName := b.bucketName,
               progress := some 100 }
  | HookType.render_error =>
      { e with status := Status.failed,
               errorMessage := some (b.errMsgs.headD "Render failed") }
  | HookType.render_timeout =>
      { e with status := Status.failed,
               errorMessage := some "Render timeout" }
  | HookType.other => e

/-- Result of one `handleWebhook` request: HTTP status code, collection
afterwards, and the `(userId, status)` notifications sent. -/
structure HandleWebhookResult where
  httpStatus : Nat
  db : List ExportReq
  notified : List (String × Status)
deriving DecidableEq, Repr

/-- Notifications emitted by the `switch` of `handleWebhook`: terminal
outcomes notify the user, `render_started` and unknown types do not. -/
def hookNotifications (b : HookBody) (e : ExportReq) : List (String × Status) :=
  match b.type with
  | HookType.render_success => [(e.userId, Status.completed)]
  | HookType.render_error => [(e.userId, Status.failed)]
  | HookType.render_timeout => [(e.userId, Status.failed)]
  | _ => []

/-- `ExportController.handleWebhook`
(`src/src/controllers/export.controller.ts` lines 294-386).
`secretConfigured` models `process.env.WEBHOOK_SECRET` being set,
`sigHeader` the `x-remotion-signature` header, and `expectedSig` the HMAC
the controller computes over the body.  Signature verification runs only
when the secret is configured and a header is present. -/
def handleWebhook (secretConfigured : Bool) (sigHeader : Option String)
    (expectedSig : String) (b : HookBody) (db : List ExportReq) :
    HandleWebhookResult :=
  match sigHeader with
  | some sig =>
      if secretConfigured && sig != expectedSig then
        { httpStatus := 401, db := db, notified := [] }
      else
        match findById db b.exportId with
        | none => { httpStatus := 404, db := db, notified := [] }
        | some e =>
            { httpStatus := 200, db := saveById db b.exportId (applyHook b),
              notified := hookNotifications b e }
  | none =>
      match findById db b.exportId with
      | none => { httpStatus := 404, db := db, notified := [] }
      | some e =>
          { httpStatus := 200, db := saveById db b.exportId (applyHook b),
            notified := hookNotifications b e }

/-- Result of one `cancelExport` request: HTTP status code, collection
afterwards, and whether `stopStepFunctionsExecution` was called. -/
structure CancelResult where
  httpStatus : Nat
  db : List ExportReq
  stoppedExecution : Bool
deriving DecidableEq, Repr

/-- `ExportController.cancelExport`
(`src/src/controllers/export.controller.ts` lines 391-448).  A non-terminal
request has its execution stopped (when an `executionArn` is recorded) and is
saved with status `failed` and error message `Cancelled by user`; a terminal
request is answered with HTTP 400 and left untouched. -/
def cancelExport (db : List ExportReq) (exportId userId : String) : CancelResult :=
  match findByIdAndUser db exportId userId with
  | none => { httpStatus := 404, db := db, stoppedExecution := false }
  | some e =>
      if !e.status.isActive then
        { httpStatus := 400, db := db, stoppedExecution := false }
      else
        { httpStatus := 200,
          db := saveById db exportId (fun r =>
            { r with status := Status.failed,
                     errorMessage := some "Cancelled by user" }),
          stoppedExecution := e.executionArn.isSome }

/-! ## Queue consumer (`src/lambda/render-function/index.ts` lines 73-149) -/

/-- A parsed render message body.  JavaScript truthiness: a required field is
missing when it is absent or the empty string, so each is an `Option String`
and the guard also rejects `some ""`. -/
structure RenderMessage where
  exportId : Option String
  projectId : Option String
  userId : Option String
deriving DecidableEq, Repr

/-- A required field passes the `!message.field` guard exactly when it is
present and non-empty. -/
def fieldPresent (o : Option String) : Bool :=
  match o with
  | some s => !s.isEmpty
  | none => false

/-- One SQS record: its `messageId` and its body.  `body = none` models a
record whose body `JSON.parse` rejects. -/
structure SQSRecordM where
  messageId : String
  body : Option RenderMessage
deriving DecidableEq, Repr

/-- Environment of the queue consumer: whether `STATE_MACHINE_ARN` is set and
whether the `StartExecutionCommand` round-trip to Step Functions succeeds for
a given export id. -/
structure ConsumerEnv where
  stateMachineArnSet : Bool
  sfnStartOk : String → Bool

/-- Effects of successfully processing one record: the export id whose
execution was started and whose database row was set to `queued`. -/
structure ProcessEffect where
  startedExportId : String
deriving DecidableEq, Repr

/-- `processSQSRecord` (`src/lambda/render-function/index.ts` lines 99-149).
Parse failures, missing required fields, a missing `STATE_MACHINE_ARN`, and
Step Functions errors are all thrown (`throw error; // Let SQS retry`), i.e.
returned as `Except.error`. -/
def processSQSRecord (env : ConsumerEnv) (r : SQSRecordM) :
    Except String ProcessEffect :=
  match r.body with
  | none => Except.error "JSON parse failure"
  | some m =>
      if !(fieldPresent m.exportId && fieldPresent m.projectId &&
           fieldPresent m.userId) then
        Except.error "Missing required fields: exportId, projectId, or userId"
      else if !env.stateMachineArnSet then
        Except.error "STATE_MACHINE_ARN environment variable not set"
      else
        let eid := m.exportId.getD ""
        if !env.sfnStartOk eid then
          Except.error "StartExecutionCommand failed"
        else
          Except.ok { startedExportId := eid }

/-- `handleSQSEvent` (`src/lambda/render-function/index.ts` lines 73-94):
`Promise.allSettled` over every record, then the message ids of the rejected
results, in order, as `batchItemFailures`. -/
def handleSQSEvent (env : ConsumerEnv) (records : List SQSRecordM) :
    List String :=
  (records.map (fun r => (r.messageId, processSQSRecord env r))).filterMap
    (fun p => match p.2 with
      | Except.error _ => some p.1
      | Except.ok _ => none)

/-- Whether processing a record rejects. -/
def processingFailed (env : ConsumerEnv) (r : SQSRecordM) : Bool :=
  match processSQSRecord env r with
  | Except.error _ => true
  | Except.ok _ => false

/-! ## Task-token webhook resolver
(`src/lambda/render-function/index.ts` lines 811-969, the variant built on
`SendTaskSuccessCommand` / `SendTaskFailureCommand`) -/

/-- Completion signal type of the Remotion webhook payload.  The handler only
distinguishes `success` from everything else (`const isSuccess = type ===
'success'`). -/
inductive SignalType where
  | success
  | error
  | timeout
deriving DecidableEq, Repr

/-- A parsed Remotion webhook payload after task-token extraction from
`customData`. -/
structure RemotionPayload where
  type : SignalType
  renderId : String
  taskToken : Option String
deriving DecidableEq, Repr

/-- State of the workflow engine's task-token registry.

Modelled from the spec: the Task Token Registry (spec section 2) is realized
by the external workflow engine, whose code is not part of this repository.
The spec states that it "maps a continuation token to a suspended execution"
and "guarantees at most one resume per token", and that a late callback on an
already-consumed token "must be rejected as stale" (section 4.2).  So the
state is the set of still-suspended tokens together with the outcomes applied
so far, and resuming a token that is not suspended fails. -/
structure SfnState where
  suspended : List String
  resolved : List (String × Bool)
deriving DecidableEq, Repr

/-- Modelled from the spec: resuming a suspended execution consumes its token
and records the outcome exactly once; a resume with an unknown or consumed
token is rejected by the engine (the AWS SDK call rejects, which the handler
observes as a thrown error). -/
def sendTaskResume (st : SfnState) (tok : String) (isSuccess : Bool) :
    Except Unit SfnState :=
  if st.suspended.contains tok then
    Except.ok { suspended := st.suspended.erase tok,
                resolved := st.resolved ++ [(tok, isSuccess)] }
  else
    Except.error ()

/-- Observable outcome of one webhook delivery to `handleRemotionWebhook`:
the HTTP status code returned, the registry state afterwards, and whether a
resume (`SendTaskSuccess`/`SendTaskFailure`) went through. -/
structure ResolverResult where
  statusCode : Nat
  st : SfnState
  resumed : Bool
deriving DecidableEq, Repr

/-- `handleRemotionWebhook` (`src/lambda/render-function/index.ts` lines
811-969).  `body = none` models a JSON parse failure (HTTP 400).  When the
secret is configured and a signature header is present but does not match
the computed digest, the code logs `WARNING: Signature mismatch - proceeding
anyway for debugging` and continues; a missing header likewise only logs.
A missing task token or one shorter than 100 characters is answered 400.
Otherwise the resume is attempted: on engine rejection the handler rethrows
and its outer catch answers 500 with the registry untouched. -/
def handleRemotionWebhook (secretConfigured : Bool) (sigHeader : Option String)
    (expectedSig : String) (body : Option RemotionPayload) (st : SfnState) :
    ResolverResult :=
  match body with
  | none => { statusCode := 400, st := st, resumed := false }
  | some payload =>
      -- Signature verification block: every branch falls through.
      let _sigMismatch :=
        secretConfigured &&
          (match sigHeader with
           | some sig => sig != expectedSig
           | none => false)
      match payload.taskToken with
      | none => { statusCode := 400, st := st, resumed := false }
      | some tok =>
          if tok.length < 100 then
            { statusCode := 400, st := st, resumed := false }
          else
            let isSuccess := payload.type == SignalType.success
            match sendTaskResume st tok isSuccess with
            | Except.ok st' => { statusCode := 200, st := st', resumed := true }
            | Except.error _ => { statusCode := 500, st := st, resumed := false }

/-- `validateWebhookSignature` middleware
(`src/src/middleware/validation.middleware.ts` lines 164-218): with a secret
configured it rejects a missing header with 401 and a mismatching header with
401, and passes the request through otherwise.  `none` means `next()` was
called. -/
def validateWebhookSignature (secretConfigured : Bool)
    (sigHeader : Option String) (expectedSig : String) : Option Nat :=
  if !secretConfigured then
    none
  else
    match sigHeader with
    | none => some 401
    | some sig => if sig != expectedSig then some 401 else none

/-! ## Step Functions action handlers and state machine
(`src/lambda/render-function/index.ts` lines 155-287 and
`src/infrastructure/setup.sh` lines 373-488) -/

/-- Handle returned by `renderMediaOnLambda`: the worker-side render id and
storage bucket. -/
structure RenderHandle where
  renderId : String
  bucketName : String
deriving DecidableEq, Repr

/-- One update issued to the persistence sink (`updateExportInDatabase`):
the export id and the fields of the update object.  The spec treats
persistent storage as an external key-value update sink, so the issued
updates are the observable effect. -/
structure DbUpdate where
  exportId : String
  statusVal : Option Status
  errorMessage : Option String
  progressVal : Option Nat
  renderId : Option String
  bucketName : Option String
deriving DecidableEq, Repr

/-- `startRender` (`src/lambda/render-function/index.ts` lines 155-223):
on a successful `renderMediaOnLambda` invocation it issues the update
`{status: 'processing', renderId, bucketName}` and returns the handle; on
invocation failure its catch issues `{status: 'failed', errorMessage:
'Failed to start render: ...'}` and rethrows.  `processing` is only ever
written after the invocation has succeeded. -/
def startRender (invoke : Except String RenderHandle) (eid : String) :
    List DbUpdate × Except String RenderHandle :=
  match invoke with
  | Except.ok h =>
      ([{ exportId := eid, statusVal := some Status.processing,
          errorMessage := none, progressVal := none,
          renderId := some h.renderId, bucketName := some h.bucketName }],
       Except.ok h)
  | Except.error e =>
      ([{ exportId := eid, statusVal := some Status.failed,
          errorMessage := some ("Failed to start render: " ++ e),
          progressVal := none, renderId := none, bucketName := none }],
       Except.error e)

/-- Retry policy of a state-machine task, as written in
`state-machine.json`. -/
structure RetryPolicy where
  intervalSeconds : Nat
  maxAttempts : Nat
  backoffRate : Nat
deriving DecidableEq, Repr

/-- The `Retry` block of the `TriggerRender` state
(`src/infrastructure/setup.sh` lines 397-402): `IntervalSeconds 10`,
`MaxAttempts 3`, `BackoffRate 2.0`. -/
def triggerRenderRetry : RetryPolicy :=
  { intervalSeconds := 10, maxAttempts := 3, backoffRate := 2 }

/-- Wait before the (k+1)-th retry: `IntervalSeconds * BackoffRate ^ k`
(AWS exponential backoff). -/
def retryWait (p : RetryPolicy) (k : Nat) : Nat :=
  p.intervalSeconds * p.backoffRate ^ k

/-- Outcome of running the `TriggerRender` state with its retry and catch
configuration: whether the `Catch` routed the execution to the terminal
`RenderFailed` path, how many invocations were made, the backoff waits taken
between them, every database update issued, and the handle when the machine
proceeded to `WaitForRender`. -/
structure TriggerRunResult where
  reachedFailedState : Bool
  invocations : Nat
  waits : List Nat
  updates : List DbUpdate
  handle : Option RenderHandle
deriving DecidableEq, Repr

/-- One run of the `TriggerRender` state: attempt `k`, with `retriesLeft`
retries remaining.  `outcomes k` is the result of the k-th
`renderMediaOnLambda` invocation.  A thrown invocation matches the retry
rule (`States.TaskFailed`); once retries are exhausted the `Catch` routes to
`RenderFailed`.  (On that path the `RenderFailed` task parameters reference
`$.statusResult.payload.error`, which does not exist yet, so `failRender`
itself contributes no further update; the failure status was already issued
by the catch inside `startRender`.) -/
def runTriggerRenderAux (outcomes : Nat → Except String RenderHandle)
    (eid : String) : Nat → Nat → TriggerRunResult
  | k, 0 =>
      let r := startRender (outcomes k) eid
      match r.2 with
      | Except.ok h =>
          { reachedFailedState := false, invocations := k + 1, waits := [],
            updates := r.1, handle := some h }
      | Except.error _ =>
          { reachedFailedState := true, invocations := k + 1, waits := [],
            updates := r.1, handle := none }
  | k, retriesLeft + 1 =>
      let r := startRender (outcomes k) eid
      match r.2 with
      | Except.ok h =>
          { reachedFailedState := false, invocations := k + 1, waits := [],
            updates := r.1, handle := some h }
      | Except.error _ =>
          let rest := runTriggerRenderAux outcomes eid (k + 1) retriesLeft
          { reachedFailedState := rest.reachedFailedState,
            invocations := rest.invocations,
            waits := retryWait triggerRenderRetry k :: rest.waits,
            updates := r.1 ++ rest.updates, handle := rest.handle }

/-- Run the `TriggerRender` state from its first attempt with the configured
retry budget. -/
def runTriggerRender (outcomes : Nat → Except String RenderHandle)
    (eid : String) : TriggerRunResult :=
  runTriggerRenderAux outcomes eid 0 triggerRenderRetry.maxAttempts

/-- Progress report returned by `getRenderProgress`. -/
structure RenderProgress where
  overallProgress : Option Nat
  done : Bool
  fatalErrorEncountered : Bool
  outputFile : Option String
deriving DecidableEq, Repr

/-- An AWS SDK error, identified by its `name`. -/
structure AwsError where
  name : String
deriving DecidableEq, Repr

/-- The payload `checkRenderStatus` returns to the state machine. -/
structure CheckResult where
  done : Bool
  failed : Bool
  progressVal : Option Nat
  outputFile : Option String
deriving DecidableEq, Repr

/-- The error names `checkRenderStatus` treats as throttling. -/
def throttleErrorNames : List String :=
  ["TooManyRequestsException", "ThrottlingException"]

/-- `checkRenderStatus` (`src/lambda/render-function/index.ts` lines
229-287).  `query` is the outcome of the `getRenderProgress` call.  Missing
`renderId`/`bucketName` throws; a throttling error is swallowed and reported
as `{done: false, failed: false, progress: 0}` with no database write; any
other error is rethrown; a successful query reports the progress and, when
`overallProgress` is defined, issues a progress update. -/
def checkRenderStatus (renderId bucketName : Option String)
    (query : Except AwsError RenderProgress) (eid : String) :
    Except AwsError CheckResult × List DbUpdate :=
  if !(renderId.isSome && bucketName.isSome) then
    (Except.error { name := "Error" }, [])
  else
    match query with
    | Except.ok p =>
        let ups :=
          match p.overallProgress with
          | some v =>
              [{ exportId := eid, statusVal := none, errorMessage := none,
                 progressVal := some v, renderId := none, bucketName := none }]
          | none => []
        (Except.ok { done := p.done, failed := p.fatalErrorEncountered,
                     progressVal := p.overallProgress,
                     outputFile := p.outputFile }, ups)
    | Except.error e =>
        if throttleErrorNames.contains e.name then
          (Except.ok { done := false, failed := false, progressVal := some 0,
                       outputFile := none }, [])
        else
          (Except.error e, [])

/-- What one `CheckRenderStatus` invocation reports to the
`IsRenderComplete` choice state. -/
structure CheckOut where
  done : Bool
  failed : Bool
deriving DecidableEq, Repr

/-- The `Seconds` field of the `WaitForRender` state
(`src/infrastructure/setup.sh` lines 409-413). -/
def waitForRenderSeconds : Nat := 30

/-- One `WaitForRender` → `CheckRenderStatus` → `IsRenderComplete` cycle of
the state machine: `some true` enters `RenderSuccess`, `some false` enters
`RenderFailed`, `none` loops back to `WaitForRender`.  The machine definition
carries no loop counter and no execution `TimeoutSeconds`. -/
def smCycle (c : CheckOut) : Option Bool :=
  if c.done then some true else if c.failed then some false else none

/-- State of the machine after `n` wait/check cycles fed by the stream
`checks`: the terminal state reached, or `none` while still looping. -/
def smLoop (checks : Nat → CheckOut) : Nat → Option Bool
  | 0 => none
  | n + 1 =>
      match smLoop checks n with
      | some t => some t
      | none => smCycle (checks n)

/-! ## Polling variant (`src/lambda/render-function/index.ts` lines 610-696) -/

/-- Progress as seen by `pollRenderStatus` on one polling iteration. -/
structure PollReport where
  done : Bool
  fatalErrorEncountered : Bool
  outputFile : Option String
deriving DecidableEq, Repr

/-- Terminal outcome of one `pollRenderStatus` run. -/
inductive PollOutcome where
  | success (outputFile : Option String)
  | fatalError
  | timeout
deriving DecidableEq, Repr

/-- The polling ceiling: `maxAttempts = 120` five-second iterations. -/
def pollMaxAttempts : Nat := 120

/-- `pollRenderStatus` loop body from iteration `k` with `fuel` iterations
remaining: a `done` report returns success (sending one `render_success`
webhook when a webhook URL is configured); a fatal report sends one
`render_error` webhook and throws; exhausting the ceiling sends one
`render_timeout` webhook and throws `Render timeout`.  The pair returned is
the outcome and the terminal webhooks sent. -/
def pollRenderStatusAux (hasWebhook : Bool) (progress : Nat → PollReport)
    (k : Nat) : Nat → PollOutcome × List HookType
  | 0 => (PollOutcome.timeout, if hasWebhook then [HookType.render_timeout] else [])
  | fuel + 1 =>
      let p := progress k
      if p.done then
        (PollOutcome.success p.outputFile,
         if hasWebhook then [HookType.render_success] else [])
      else if p.fatalErrorEncountered then
        (PollOutcome.fatalError,
         if hasWebhook then [HookType.render_error] else [])
      else
        pollRenderStatusAux hasWebhook progress (k + 1) fuel

/-- `pollRenderStatus` (`src/lambda/render-function/index.ts` lines
610-696), run from the first iteration with the full ceiling. -/
def pollRenderStatus (hasWebhook : Bool) (progress : Nat → PollReport) :
    PollOutcome × List HookType :=
  pollRenderStatusAux hasWebhook progress 0 pollMaxAttempts

/-! ## Concrete fixtures used by witnesses and counterexamples -/

/-- An export request sitting in the non-terminal `processing` status. -/
def processingReq : ExportReq := mkExportReq "e1" "p1" "u1" Status.processing

/-- An export request in the terminal `completed` status. -/
def completedReq : ExportReq := mkExportReq "e1" "p1" "u1" Status.completed

/-- A `render_started` webhook body addressed at export `e1`. -/
def startedBody : HookBody :=
  { type := HookType.render_started, exportId := "e1", renderId := some "r2",
    bucketName := some "b2", outputFile := none, errMsgs := [] }

/-- A task token of plausible length (Step Functions tokens are long). -/
def sampleToken : String := String.mk (List.replicate 120 'a')

/-- A registry with exactly the sample token suspended. -/
def sampleSfnState : SfnState := { suspended := [sampleToken], resolved := [] }

/-- A success payload carrying the sample token. -/
def successPayload : RemotionPayload :=
  { type := SignalType.success, renderId := "r1", taskToken := some sampleToken }

/-- An error payload carrying the sample token. -/
def errorPayload : RemotionPayload :=
  { type := SignalType.error, renderId := "r1", taskToken := some sampleToken }

/-- A consumer environment in which Step Functions always accepts starts. -/
def happyEnv : ConsumerEnv :=
  { stateMachineArnSet := true, sfnStartOk := fun _ => true }

/-- A record whose body does not parse as JSON. -/
def malformedRec : SQSRecordM := { messageId := "m1", body := none }

/-- A fully valid record. -/
def validRec : SQSRecordM :=
  { messageId := "m2",
    body := some { exportId := some "e1", projectId := some "p1",
                   userId := some "u1" } }

/-- Invocation outcomes in which every `renderMediaOnLambda` attempt throws. -/
def allAttemptsFail : Nat → Except String RenderHandle :=
  fun _ => Except.error "connect ETIMEDOUT"

/-- A progress stream that never reports done or a fatal error. -/
def neverDonePoll : Nat → PollReport :=
  fun _ => { done := false, fatalErrorEncountered := false, outputFile := none }

/-- A check stream reporting neither done nor failed, forever. -/
def neverDoneChecks : Nat → CheckOut :=
  fun _ => { done := false, failed := false }

/-! ## Theorems -/

/-- Helper: a pending machine cycle never leaves the wait/check loop. -/
theorem smLoop_neverDone (checks : Nat → CheckOut)
    (h : ∀ k, checks k = { done := false, failed := false }) :
    ∀ n, smLoop checks n = none := by
  intro n
  induction n with
  | zero => rfl
  | succ n ih => simp [smLoop, ih, h n, smCycle]

/-- C3: for a valid submission whose resource key already has a non-terminal
export request, `exportVideo` answers 409, enqueues no render request (so no
new workflow execution is started) and leaves the collection unchanged; and
`exportVideo` preserves the at-most-one-non-terminal-request-per-resource-key
invariant. -/
theorem C3_duplicate_submission_acknowledged (db : List ExportReq)
    (projectFound videoUrlOk : Bool) (p u newId : String) :
    ((∃ e ∈ db, isActiveDup p u e = true) →
      (exportVideo db true true p u newId).httpStatus = 409 ∧
      (exportVideo db true true p u newId).enqueued = false ∧
      (exportVideo db true true p u newId).db = db) ∧
    (dupFree db →
      dupFree (exportVideo db projectFound videoUrlOk p u newId).db) := by
  constructor
  · rintro ⟨e, he, hdup⟩
    have hfind : db.find? (isActiveDup p u) ≠ none := by
      intro hnone
      rw [List.find?_eq_none] at hnone
      exact hnone e he hdup
    match hf : db.find? (isActiveDup p u) with
    | some x => simp [exportVideo, hf]
    | none => exact absurd hf hfind
  · intro hfree
    cases projectFound with
    | false => simpa [exportVideo] using hfree
    | true =>
      cases videoUrlOk with
      | false => simpa [exportVideo] using hfree
      | true =>
        match hf : db.find? (isActiveDup p u) with
        | some x => simpa [exportVideo, hf] using hfree
        | none =>
          have hall : ∀ x ∈ db, ¬ isActiveDup p u x = true :=
            List.find?_eq_none.mp hf
          have hzero : db.countP (isActiveDup p u) = 0 :=
            List.countP_eq_zero.mpr hall
          intro e he
          simp only [exportVideo, hf, Bool.not_true, Bool.false_eq_true,
            if_false] at he ⊢
          rw [List.mem_append] at he
          have hcnt : activeCount (db ++ [mkExportReq newId p u Status.pending])
              e.projectId e.userId
              = activeCount db e.projectId e.userId
                + (if isActiveDup e.projectId e.userId
                    (mkExportReq newId p u Status.pending) then 1 else 0) := by
            simp [activeCount, List.countP_append, List.countP_cons]
          by_cases hmatch : isActiveDup e.projectId e.userId
              (mkExportReq newId p u Status.pending) = true
          · have hkey : p = e.projectId ∧ u = e.userId := by
              simpa [isActiveDup, mkExportReq, Status.isActive,
                activeStatuses] using hmatch
            have hz : activeCount db e.projectId e.userId = 0 := by
              rw [← hkey.1, ← hkey.2]
              exact hzero
            rw [hcnt, hz, if_pos hmatch]
          · rcases he with he | he
            · rw [hcnt, if_neg hmatch, Nat.add_zero]
              exact hfree e he
            · exfalso
              apply hmatch
              simp only [List.mem_singleton] at he
              subst he
              simp [isActiveDup, mkExportReq, Status.isActive, activeStatuses]

/-- C3 witness. -/
theorem C3_duplicate_submission_acknowledged_witness :
    (exportVideo [processingReq] true true "p1" "u1" "e2").httpStatus = 409 ∧
    dupFree (exportVideo [processingReq] true true "p1" "u1" "e2").db := by
  have h := C3_duplicate_submission_acknowledged [processingReq] true true "p1" "u1" "e2"
  exact ⟨(h.1 ⟨processingReq, by decide, by decide⟩).1, h.2 (by decide)⟩

/-- C6 counterexample: a webhook of type `render_started` addressed at an
export request already in the terminal status `completed` is accepted (HTTP
200) and moves it back to `processing` — an operation of the system does
transition a Job out of a terminal status. -/
theorem C6_webhook_exits_terminal_status :
    Status.isTerminal completedReq.status = true ∧
    (handleWebhook true (some "sig") "sig" startedBody [completedReq]).httpStatus
      = 200 ∧
    (handleWebhook true (some "sig") "sig" startedBody [completedReq]).db.map
      (fun e => e.status) = [Status.processing] := by
  decide

/-- C6 amended: only explicit cancellation is guarded against terminal
status — `cancelExport` on a terminal request answers 400 and changes
nothing — while `handleWebhook` applies its status update unconditionally,
so any webhook event can transition a Job out of a terminal status
(`render_started` always yields `processing`, `render_error` and
`render_timeout` always yield `failed`, `render_success` always yields
`completed`). -/
theorem C6_only_cancel_guarded (db : List ExportReq) (e : ExportReq)
    (uid : String) (b : HookBody)
    (hfound : findByIdAndUser db e.id uid = some e)
    (hterm : e.status.isTerminal = true) :
    cancelExport db e.id uid
      = { httpStatus := 400, db := db, stoppedExecution := false } ∧
    (applyHook { b with type := HookType.render_started } e).status
      = Status.processing ∧
    (applyHook { b with type := HookType.render_error } e).status
      = Status.failed ∧
    (applyHook { b with type := HookType.render_timeout } e).status
      = Status.failed ∧
    (applyHook { b with type := HookType.render_success } e).status
      = Status.completed := by
  have hact : e.status.isActive = false := by
    simpa [Status.isTerminal] using hterm
  refine ⟨?_, rfl, rfl, rfl, rfl⟩
  simp [cancelExport, hfound, hact]

/-- C6 witness. -/
theorem C6_only_cancel_guarded_witness :
    cancelExport [completedReq] "e1" "u1"
      = { httpStatus := 400, db := [completedReq], stoppedExecution := false } ∧
    (applyHook { startedBody with type := HookType.render_started }
      completedReq).status = Status.processing := by
  have h := C6_only_cancel_guarded [completedReq] completedReq "u1" startedBody
    (by decide) (by decide)
  exact ⟨h.1, h.2.1⟩

/-- C7 counterexample: cancelling a non-terminal (`processing`) export marks
it `failed` — not `canceled`, a value the persisted status enum does not even
contain — and a cancel request on a terminal (`completed`) export is answered
with HTTP 400, not a 409 conflict. -/
theorem C7_cancel_marks_failed_not_canceled :
    (cancelExport [processingReq] "e1" "u1").db.map (fun e => e.status)
      = [Status.failed] ∧
    (cancelExport [processingReq] "e1" "u1").db.map (fun e => e.errorMessage)
      = [some "Cancelled by user"] ∧
    statusEnum.contains "canceled" = false ∧
    (cancelExport [completedReq] "e1" "u1").httpStatus = 400 := by
  decide

/-- C7 amended: an explicit cancel request on a non-terminal export stops the
workflow execution when one is recorded and saves the request with status
`failed` and error message `Cancelled by user` (HTTP 200); on an export that
has already reached a terminal state it is a no-op answered with the client
error 400. -/
theorem C7_cancel_behavior (db : List ExportReq) (e : ExportReq)
    (uid : String) (hfound : findByIdAndUser db e.id uid = some e) :
    (e.status.isActive = true →
      cancelExport db e.id uid
        = { httpStatus := 200,
            db := saveById db e.id (fun r =>
              { r with status := Status.failed,
                       errorMessage := some "Cancelled by user" }),
            stoppedExecution := e.executionArn.isSome }) ∧
    (e.status.isActive = false →
      cancelExport db e.id uid
        = { httpStatus := 400, db := db, stoppedExecution := false }) := by
  constructor
  · intro hact
    simp [cancelExport, hfound, hact]
  · intro hact
    simp [cancelExport, hfound, hact]

/-- C7 witness. -/
theorem C7_cancel_behavior_witness :
    (cancelExport [processingReq] processingReq.id "u1").httpStatus = 200 ∧
    (cancelExport [completedReq] completedReq.id "u1").httpStatus = 400 := by
  have h1 := (C7_cancel_behavior [processingReq] processingReq "u1"
    (by decide)).1 (by decide)
  have h2 := (C7_cancel_behavior [completedReq] completedReq "u1"
    (by decide)).2 (by decide)
  rw [h1, h2]
  exact ⟨rfl, rfl⟩

set_option maxRecDepth 20000 in
/-- C1: evaluating the webhook resolver at a callback whose signature header
does not match the digest computed with the shared secret.  The resolver
(`handleRemotionWebhook`) does not respond with an authentication error: it
logs `WARNING: Signature mismatch - proceeding anyway for debugging`,
resumes the suspended execution and answers 200.  The express-side
`validateWebhookSignature` middleware, by contrast, rejects the same mismatch
with 401, which is the behavior the claim describes. -/
theorem C1_signature_mismatch_still_resumes :
    handleRemotionWebhook true (some "0000") "ffff" (some successPayload)
      sampleSfnState
      = { statusCode := 200,
          st := { suspended := [], resolved := [(sampleToken, true)] },
          resumed := true } ∧
    validateWebhookSignature true (some "0000") "ffff" = some 401 :=
  ⟨rfl, rfl⟩

set_option maxRecDepth 20000 in
/-- C2 counterexample: delivering the completion callback for the same
continuation token a second time (out of order, carrying a different
outcome) does not make the resolver respond with success: the first delivery
answers 200 but the duplicate answers HTTP 500, because the rejected resume
call is rethrown to the outer catch. -/
theorem C2_duplicate_delivery_responds_500 :
    (handleRemotionWebhook false none "" (some successPayload)
      sampleSfnState).statusCode = 200 ∧
    (handleRemotionWebhook false none "" (some errorPayload)
      (handleRemotionWebhook false none "" (some successPayload)
        sampleSfnState).st).statusCode = 500 := by
  decide

/-- C2 amended: delivering the completion callback for a continuation token
a second time performs no state change and only the first delivery's outcome
is applied, but the resolver responds to the duplicate with HTTP 500 (the
rejected resume is rethrown), not with success. -/
theorem C2_duplicate_delivery_first_outcome_only
    (secretConfigured : Bool) (sigHeader : Option String) (expectedSig : String)
    (st : SfnState) (tok : String) (p1 p2 : RemotionPayload)
    (h1 : p1.taskToken = some tok) (h2 : p2.taskToken = some tok)
    (hlen : 100 ≤ tok.length) (hnodup : st.suspended.Nodup)
    (hsusp : tok ∈ st.suspended) :
    (handleRemotionWebhook secretConfigured sigHeader expectedSig (some p1)
      st).statusCode = 200 ∧
    (handleRemotionWebhook secretConfigured sigHeader expectedSig (some p1)
      st).st.resolved = st.resolved ++ [(tok, p1.type == SignalType.success)] ∧
    (handleRemotionWebhook secretConfigured sigHeader expectedSig (some p2)
      (handleRemotionWebhook secretConfigured sigHeader expectedSig (some p1)
        st).st).statusCode = 500 ∧
    (handleRemotionWebhook secretConfigured sigHeader expectedSig (some p2)
      (handleRemotionWebhook secretConfigured sigHeader expectedSig (some p1)
        st).st).st
      = (handleRemotionWebhook secretConfigured sigHeader expectedSig (some p1)
          st).st ∧
    (handleRemotionWebhook secretConfigured sigHeader expectedSig (some p2)
      (handleRemotionWebhook secretConfigured sigHeader expectedSig (some p1)
        st).st).resumed = false := by
  have hnlt : ¬ tok.length < 100 := Nat.not_lt.mpr hlen
  have hnotin : tok ∉ st.suspended.erase tok := by
    intro hmem
    exact absurd ((List.Nodup.mem_erase_iff hnodup).mp hmem).1 (by simp)
  simp [handleRemotionWebhook, h1, h2, hnlt, sendTaskResume, hsusp, hnotin]

/-- C2 witness. -/
theorem C2_duplicate_delivery_first_outcome_only_witness :
    (handleRemotionWebhook false none "" (some successPayload)
      sampleSfnState).statusCode = 200 ∧
    (handleRemotionWebhook false none "" (some errorPayload)
      (handleRemotionWebhook false none "" (some successPayload)
        sampleSfnState).st).st
      = (handleRemotionWebhook false none "" (some successPayload)
          sampleSfnState).st := by
  have h := C2_duplicate_delivery_first_outcome_only false none ""
    sampleSfnState sampleToken successPayload errorPayload rfl rfl
    (by decide) (by decide) (by decide)
  exact ⟨h.1, h.2.2.2.1⟩

/-- C4 counterexample: a queue message whose body does not parse is not
marked permanently failed — `processSQSRecord` throws (`Let SQS retry`) and
`handleSQSEvent` returns its message id in `batchItemFailures`, the set of
messages the queue redelivers.  The sibling message is still processed and
excluded from the failure list. -/
theorem C4_malformed_message_is_retried :
    handleSQSEvent happyEnv [malformedRec, validRec] = ["m1"] ∧
    "m1" ∈ handleSQSEvent happyEnv [malformedRec, validRec] := by
  decide

/-- C4 amended: for a queue message whose body fails to parse or is missing
a required field, the consumer throws and reports the message in the batch
failure list, so the queue does redeliver it (it is not marked permanently
failed); the remaining messages of the batch are still processed
independently. -/
theorem C4_parse_failure_reported_for_retry (env : ConsumerEnv)
    (r r' : SQSRecordM) (m : RenderMessage) (rs : List SQSRecordM)
    (h : r.body = none) (h' : r'.body = some m)
    (hmiss : fieldPresent m.exportId = false ∨
      fieldPresent m.projectId = false ∨ fieldPresent m.userId = false) :
    processSQSRecord env r = Except.error "JSON parse failure" ∧
    handleSQSEvent env (r :: rs) = r.messageId :: handleSQSEvent env rs ∧
    processSQSRecord env r'
      = Except.error "Missing required fields: exportId, projectId, or userId" ∧
    handleSQSEvent env (r' :: rs) = r'.messageId :: handleSQSEvent env rs := by
  have hb : (fieldPresent m.exportId && fieldPresent m.projectId &&
      fieldPresent m.userId) = false := by
    rcases hmiss with hm | hm | hm <;> simp [hm]
  have hp : (fieldPresent m.exportId = false ∨
      fieldPresent m.projectId = false) ∨ fieldPresent m.userId = false := by
    tauto
  refine ⟨by simp [processSQSRecord, h], ?_, ?_, ?_⟩
  · simp [handleSQSEvent, processSQSRecord, h]
  · simp [processSQSRecord, h', hb, hp]
  · simp [handleSQSEvent, processSQSRecord, h', hb, hp]

/-- C4 witness. -/
theorem C4_parse_failure_reported_for_retry_witness :
    processSQSRecord happyEnv malformedRec = Except.error "JSON parse failure" ∧
    handleSQSEvent happyEnv [malformedRec, validRec]
      = malformedRec.messageId :: handleSQSEvent happyEnv [validRec] := by
  have h := C4_parse_failure_reported_for_retry happyEnv malformedRec
    { messageId := "m3",
      body := some { exportId := none, projectId := some "p1",
                     userId := some "u1" } }
    { exportId := none, projectId := some "p1", userId := some "u1" }
    [validRec] rfl rfl (Or.inl rfl)
  exact ⟨h.1, h.2.1⟩

/-- C5: the consumer returns exactly the message ids of the records whose
processing failed — the failure list is the id image of the failing subset,
in batch order — and the batch is processed record-by-record, so splitting a
batch anywhere splits the failure list accordingly: one record's failure
neither blocks nor fails its siblings. -/
theorem C5_batch_failures_exact (env : ConsumerEnv)
    (records xs ys : List SQSRecordM) :
    handleSQSEvent env records
      = (records.filter (processingFailed env)).map (fun r => r.messageId) ∧
    handleSQSEvent env (xs ++ ys)
      = handleSQSEvent env xs ++ handleSQSEvent env ys := by
  constructor
  · induction records with
    | nil => rfl
    | cons r rs ih =>
        simp only [handleSQSEvent, List.map_cons, List.filterMap_cons,
          List.filter_cons] at ih ⊢
        cases hpr : processSQSRecord env r with
        | error e => simp [processingFailed, hpr, ih]
        | ok v => simp [processingFailed, hpr, ih]
  · simp [handleSQSEvent, List.map_append, List.filterMap_append]

/-- C8: when every `renderMediaOnLambda` invocation throws, the
`TriggerRender` state retries under its configured policy — `MaxAttempts` 3
with `BackoffRate` 2, i.e. backoff waits of 10, 20 and 40 seconds — and on
exhaustion its `Catch` routes the execution to the terminal `RenderFailed`
path without a render handle; the persistence sink receives the invocation
error with status `failed` and at no point a `processing` status, so no
partial `processing` state is left behind. -/
theorem C8_invocation_retry_exhaustion_fails_job
    (outcomes : Nat → Except String RenderHandle) (eid : String)
    (err : Nat → String) (h : ∀ k, outcomes k = Except.error (err k)) :
    triggerRenderRetry.maxAttempts = 3 ∧
    triggerRenderRetry.backoffRate = 2 ∧
    (runTriggerRender outcomes eid).reachedFailedState = true ∧
    (runTriggerRender outcomes eid).invocations
      = 1 + triggerRenderRetry.maxAttempts ∧
    (runTriggerRender outcomes eid).waits = [10, 20, 40] ∧
    (runTriggerRender outcomes eid).handle = none ∧
    (runTriggerRender outcomes eid).updates.map (fun u => u.statusVal)
      = [some Status.failed, some Status.failed, some Status.failed,
         some Status.failed] ∧
    (runTriggerRender outcomes eid).updates.map (fun u => u.errorMessage)
      = [some ("Failed to start render: " ++ err 0),
         some ("Failed to start render: " ++ err 1),
         some ("Failed to start render: " ++ err 2),
         some ("Failed to start render: " ++ err 3)] := by
  simp [runTriggerRender, runTriggerRenderAux, triggerRenderRetry, startRender,
    retryWait, h 0, h 1, h 2, h 3]

/-- C8 witness. -/
theorem C8_invocation_retry_exhaustion_fails_job_witness :
    (runTriggerRender allAttemptsFail "e1").reachedFailedState = true ∧
    (runTriggerRender allAttemptsFail "e1").waits = [10, 20, 40] :=
  ⟨(C8_invocation_retry_exhaustion_fails_job allAttemptsFail "e1"
      (fun _ => "connect ETIMEDOUT") (fun _ => rfl)).2.2.1,
   (C8_invocation_retry_exhaustion_fails_job allAttemptsFail "e1"
      (fun _ => "connect ETIMEDOUT") (fun _ => rfl)).2.2.2.2.1⟩

/-- Helper: while every report is pending, the polling loop runs to its
ceiling and resolves to the timeout outcome with a single terminal
webhook. -/
theorem pollRenderStatusAux_pending (hasWebhook : Bool)
    (progress : Nat → PollReport) :
    ∀ fuel k,
      (∀ j, j < k + fuel → (progress j).done = false ∧
        (progress j).fatalErrorEncountered = false) →
      pollRenderStatusAux hasWebhook progress k fuel
        = (PollOutcome.timeout,
           if hasWebhook then [HookType.render_timeout] else []) := by
  intro fuel
  induction fuel with
  | zero => intro k _; rfl
  | succ fuel ih =>
      intro k h
      have hk := h k (by omega)
      rw [pollRenderStatusAux]
      simp only [hk.1, hk.2, Bool.false_eq_true, if_false]
      exact ih (k + 1) (fun j hj => h j (by omega))

/-- C9 counterexample: the Step Functions workflow has no timeout ceiling.
With a worker that never reports done or failed, the machine is still inside
its `WaitForRender`/`CheckRenderStatus` loop after 2881 cycles, although
2881 waits of 30 seconds already exceed a full 24-hour ceiling — the
workflow waits forever instead of deterministically reaching a terminal
timed-out state. -/
theorem C9_state_machine_no_ceiling :
    smLoop neverDoneChecks 2881 = none ∧
    86400 < waitForRenderSeconds * 2881 := by
  exact ⟨smLoop_neverDone neverDoneChecks (fun _ => rfl) 2881, by decide⟩

/-- C9 amended: the polling Lambda path does enforce a ceiling — a job whose
reports never signal completion resolves to the timeout outcome after the
120-attempt ceiling, exactly once (one terminal `render_timeout` webhook) —
but the Step Functions state machine defines no ceiling at all: with no
completion signal its wait/check loop never reaches a terminal state. -/
theorem C9_poll_timeout_exactly_once (hasWebhook : Bool)
    (progress : Nat → PollReport) (checks : Nat → CheckOut)
    (h : ∀ k, k < pollMaxAttempts → (progress k).done = false ∧
      (progress k).fatalErrorEncountered = false)
    (hc : ∀ k, checks k = { done := false, failed := false }) :
    (pollRenderStatus hasWebhook progress).1 = PollOutcome.timeout ∧
    (pollRenderStatus hasWebhook progress).2
      = (if hasWebhook then [HookType.render_timeout] else []) ∧
    (hasWebhook = true → (pollRenderStatus hasWebhook progress).2.length = 1) ∧
    (∀ n, smLoop checks n = none) := by
  have hp : pollRenderStatus hasWebhook progress
      = (PollOutcome.timeout,
         if hasWebhook then [HookType.render_timeout] else []) := by
    unfold pollRenderStatus
    exact pollRenderStatusAux_pending hasWebhook progress pollMaxAttempts 0
      (fun j hj => h j (by simpa using hj))
  refine ⟨by rw [hp], by rw [hp], ?_, smLoop_neverDone checks hc⟩
  intro hw
  rw [hp, hw]
  rfl

/-- C9 witness. -/
theorem C9_poll_timeout_exactly_once_witness :
    (pollRenderStatus true neverDonePoll).1 = PollOutcome.timeout ∧
    smLoop neverDoneChecks 3 = none := by
  have h := C9_poll_timeout_exactly_once true neverDonePoll neverDoneChecks
    (fun _ _ => ⟨rfl, rfl⟩) (fun _ => rfl)
  exact ⟨h.1, h.2.2.2 3⟩

/-- C10: a throttling error from the worker-side progress query
(`TooManyRequestsException` or `ThrottlingException`) is not propagated and
does not fail the job: `checkRenderStatus` returns `done = false`,
`failed = false`, progress 0, and issues no database update, so the state
machine simply waits and checks again on the next cycle. -/
theorem C10_throttling_returns_pending (rid b eid : String) (e : AwsError)
    (h : e.name = "TooManyRequestsException" ∨ e.name = "ThrottlingException") :
    checkRenderStatus (some rid) (some b) (Except.error e) eid
      = (Except.ok { done := false, failed := false, progressVal := some 0,
                     outputFile := none }, []) := by
  rcases h with h | h <;> simp [checkRenderStatus, throttleErrorNames, h]

/-- C10 witness. -/
theorem C10_throttling_returns_pending_witness :
    checkRenderStatus (some "r1") (some "b1") (Except.error
      { name := "ThrottlingException" }) "e1"
      = (Except.ok { done := false, failed := false, progressVal := some 0,
                     outputFile := none }, []) :=
  C10_throttling_returns_pending "r1" "b1" "e1"
    { name := "ThrottlingException" } (Or.inr rfl)

end Provid
